import Mathlib

/-!
Verification of the button-gesture engine of the Assetto-Corsa script
repository.  The engine lives in the combined music+mapper script
(`moza_ac_music_combo`, shipped as `src/unnamed/part_000`); an earlier
stand-alone variant is `src/moza_buttons_mapper.py`.  Both are embedded
below as pure transition functions:

* output injections (`SendInput` press/release of a scancode) and media
  commands are recorded in a trace of `OutEvent`s instead of being
  performed;
* wall-clock time is a `Nat` of milliseconds passed to every loop
  iteration, exactly as the source reads `int(time.time()*1000)` once
  per iteration;
* the permission gate (`allowed_to_send`) is an oracle boolean, assumed
  stable within one loop iteration: the source re-queries the foreground
  window at the loop head and inside every sink call, and within one
  iteration those answers coincide.  The gate's own window/process
  introspection logic is embedded separately over an explicit
  environment record (`FgEnv`);
* Python `dict`s keyed by button index become a `List ButtonState`
  indexed by position, the debounce dictionary becomes an association
  list, and the `pressed` set becomes a duplicate-free `List Nat`.
-/

/-! ### Output events and timing constants -/

/-- One observable output of the engine: a scancode key-down injection, a
scancode key-up injection, or a media command (SMTC/VK taps are summarised
as one event since their internals are outside the engine). -/
inductive OutEvent where
  | keyDown (key : String)
  | keyUp (key : String)
  | music (cmd : String)
deriving DecidableEq, Repr

def DEBOUNCE_MS : Nat := 120
def LONG_PRESS_MS : Nat := 250
def PULSE_ON_MS : Nat := 30
def PULSE_GAP_MS : Nat := 35
def PULSE_PERIOD_MS : Nat := 90

def BTN_PLAY_PAUSE : Nat := 0
def BTN_NEXT : Nat := 1
def BTN_PREV : Nat := 2

def ONE_BASED_LABELS : Bool := true

/-- `L_idx`: translation of a 1-based wheel label to the 0-based index. -/
def L_idx (n : Nat) : Nat := if ONE_BASED_LABELS then n - 1 else n

/-! ### Output sink (`tap_scancode`, `pulse_scancode`)

`tap_scancode` checks the permission gate once on entry and is a complete
no-op when it denies; otherwise it presses all keys in list order and
releases them in reverse order. -/

def tap_scancode (allowed : Bool) (keys_down : List String) (hold_ms : Nat) :
    List OutEvent :=
  if allowed then
    keys_down.map OutEvent.keyDown ++ keys_down.reverse.map OutEvent.keyUp
  else []

/-- `pulse_scancode`: the double tap (`tap`, gap, `tap`), itself gated. -/
def pulse_scancode (allowed : Bool) (key : String) (on_ms gap_ms : Nat) :
    List OutEvent :=
  if allowed then
    tap_scancode allowed [key] on_ms ++ tap_scancode allowed [key] on_ms
  else []

/-! ### Per-button dynamic state (`ButtonState` of the combined script) -/

inductive RMode where
  | pulse
  | flash18
deriving DecidableEq, Repr

structure ButtonState where
  is_down : Bool := false
  down_ms : Nat := 0
  suppressed_until_up : Bool := false
  hold_keys : Option (List String) := none
  hold_after_long_pending : Option (List String) := none
  repeat_mode : Option RMode := none
  repeat_every_ms : Option Nat := none
  repeat_after_long : Bool := false
  next_repeat_ms : Option Nat := none
  pulse_key : Option String := none
  flash_in_on_phase : Bool := false
  flash_toggle_count : Nat := 0
deriving DecidableEq, Repr

def initButtonState : ButtonState := {}

/-- `ButtonState.start_hold`: record the keys as held, and press them if
the gate allows. -/
def ButtonState.start_hold (st : ButtonState) (allowed : Bool)
    (keys : List String) : ButtonState × List OutEvent :=
  ({ st with hold_keys := some keys },
   if allowed then keys.map OutEvent.keyDown else [])

/-- `ButtonState.stop_hold`: if keys are held (a truthy, i.e. nonempty,
list) and the gate allows, release them in reverse order; always clear
`hold_keys`. -/
def ButtonState.stop_hold (st : ButtonState) (allowed : Bool) :
    ButtonState × List OutEvent :=
  let ev := match st.hold_keys with
    | some ks => if ks ≠ [] ∧ allowed = true then ks.reverse.map OutEvent.keyUp else []
    | none => []
  ({ st with hold_keys := none }, ev)

def ButtonState.start_pulse (st : ButtonState) (key : String)
    (period_ms : Nat) (after_long : Bool) (now_ms : Nat) : ButtonState :=
  { st with repeat_mode := some RMode.pulse, pulse_key := some key,
            repeat_every_ms := some period_ms,
            repeat_after_long := after_long, next_repeat_ms := some now_ms }

def ButtonState.start_flash18 (st : ButtonState) (period_ms now_ms : Nat) :
    ButtonState :=
  { st with repeat_mode := some RMode.flash18,
            repeat_every_ms := some period_ms, repeat_after_long := false,
            next_repeat_ms := some now_ms, flash_in_on_phase := false,
            flash_toggle_count := 0 }

def ButtonState.stop_repeat (st : ButtonState) : ButtonState :=
  { st with repeat_mode := none, repeat_every_ms := none,
            next_repeat_ms := none, pulse_key := none,
            flash_in_on_phase := false }

/-! ### Static binding configuration -/

/-- The optional fields a binding dictionary may carry.  The
`hold_repeat_scancode` branch exists only in the stand-alone mapper and is
unused by both configurations. -/
structure ActionCfg where
  short_scancode : Option (List String) := none
  long_scancode : Option (List String) := none
  hold_scancode : Option (List String) := none
  hold_after_long_scancode : Option (List String) := none
  short_pulse_scancode : Option (List String) := none
  hold_repeat_pulse_scancode : Option (List String) := none
  repeat_after_long : Bool := false
  hold_repeat_scancode : Option (List String × Nat) := none
deriving DecidableEq, Repr

/-- `SINGLE_ACTIONS_1B` of both scripts, already translated by `L_idx`
(labels 22, 8, 6, 19 become indices 21, 7, 5, 18). -/
def acActions (b : Nat) : ActionCfg :=
  if b = L_idx 22 then
    { short_scancode := some ["F1"], hold_after_long_scancode := some ["W"] }
  else if b = L_idx 8 then { hold_scancode := some ["Q"] }
  else if b = L_idx 6 then { hold_scancode := some ["E"] }
  else if b = L_idx 19 then
    { short_pulse_scancode := some ["L"],
      hold_repeat_pulse_scancode := some ["L"], repeat_after_long := true }
  else {}

/-- `ARROW_COMBO_LABELS = {8: LEFT, 7: DOWN, 6: RIGHT, 5: UP}` translated
by `L_idx`. -/
def acArrows (b : Nat) : Option String :=
  if b = L_idx 8 then some "LEFT"
  else if b = L_idx 7 then some "DOWN"
  else if b = L_idx 6 then some "RIGHT"
  else if b = L_idx 5 then some "UP"
  else none

/-- `MOD2_MAP = {7: '7', 5: '8', 4: '0', 6: '9'}` — used with raw (not
label-translated) indices in the source. -/
def acMod2Map (b : Nat) : Option String :=
  if b = 7 then some "7"
  else if b = 5 then some "8"
  else if b = 4 then some "0"
  else if b = 6 then some "9"
  else none

structure Config where
  actions : Nat → ActionCfg
  mod_btn : Nat
  arrows : Nat → Option String
  light18_idx : Nat
  mod2_btn_idx : Nat
  mod2_map : Nat → Option String

/-- The configuration `build_config()` produces in the combined script. -/
def acConfig : Config :=
  { actions := acActions, mod_btn := L_idx 1, arrows := acArrows,
    light18_idx := L_idx 18, mod2_btn_idx := 3, mod2_map := acMod2Map }

/-! ### Engine state -/

structure EngState where
  last_down_ms : List ((Nat × Nat) × Nat) := []
  states : List ButtonState := []
  pressed : List Nat := []
deriving DecidableEq, Repr

/-- `last_down_ms.get(key, 0)`. -/
def lookup_last_down (l : List ((Nat × Nat) × Nat)) (k : Nat × Nat) : Nat :=
  ((l.find? (fun p => p.1 = k)).map (fun p => p.2)).getD 0

def pset_add (l : List Nat) (b : Nat) : List Nat :=
  if b ∈ l then l else b :: l

def pset_discard (l : List Nat) (b : Nat) : List Nat :=
  l.filter (fun x => x ≠ b)

def engInit (n : Nat) : EngState :=
  { last_down_ms := [], states := List.replicate n initButtonState,
    pressed := [] }

/-! ### JOYBUTTONDOWN handling of the combined script -/

/-- The state reset the source performs at the start of every accepted
down event: `is_down = True; down_ms = now; suppressed_until_up = False;
stop_repeat(); hold_after_long_pending = None`. -/
def reset_on_down (now : Nat) (st : ButtonState) : ButtonState :=
  let st1 := { st with is_down := true, down_ms := now,
                       suppressed_until_up := false }
  { st1.stop_repeat with hold_after_long_pending := none }

def set_suppressed (s : EngState) (b : Nat) : EngState :=
  { s with states := (s.states.set b
      { s.states.getD b initButtonState with suppressed_until_up := true }) }

/-- A modifier combo firing: tap the mapped key, suppress the secondary
button and (when it exists in the state table) the modifier button. -/
def combo_fire (allowed : Bool) (s : EngState) (b m : Nat) (k : String) :
    EngState × List OutEvent :=
  let ev := tap_scancode allowed [k] 35
  let s1 := set_suppressed s b
  let s2 := if m < s1.states.length then set_suppressed s1 m else s1
  (s2, ev)

/-- The non-combo part of the down handler: `flash18` start for the light
button, else the ordinary binding dictionary (`hold_scancode`,
`hold_after_long_scancode`, `hold_repeat_pulse_scancode`), then the
in-game music shortcuts (Next/Prev fire on down). -/
def down_plain (C : Config) (allowed : Bool) (now : Nat) (s : EngState)
    (b : Nat) : EngState × List OutEvent :=
  if b = C.light18_idx then
    ({ s with states := (s.states.set b
        ((s.states.getD b initButtonState).start_flash18 PULSE_PERIOD_MS now)) },
     [])
  else
    let cfg := C.actions b
    let st0 := s.states.getD b initButtonState
    let p1 := match cfg.hold_scancode with
      | some ks => st0.start_hold allowed ks
      | none => (st0, [])
    let st2 := match cfg.hold_after_long_scancode with
      | some ks => { p1.1 with hold_after_long_pending := some ks }
      | none => p1.1
    let st3 := match cfg.hold_repeat_pulse_scancode with
      | some (k :: _) =>
          st2.start_pulse k PULSE_PERIOD_MS cfg.repeat_after_long now
      | _ => st2
    let e2 := if b = BTN_NEXT then [OutEvent.music "next"]
      else if b = BTN_PREV then [OutEvent.music "prev"] else []
    ({ s with states := s.states.set b st3 }, p1.2 ++ e2)

/-- After the ABS/TC modifier failed to match: try the arrow combo, else
fall through to the plain handling. -/
def down_arrow_or_plain (C : Config) (allowed : Bool) (now : Nat)
    (s : EngState) (b : Nat) : EngState × List OutEvent :=
  match C.arrows b with
  | some ka =>
      if C.mod_btn ∈ s.pressed then combo_fire allowed s b C.mod_btn ka
      else down_plain C allowed now s b
  | none => down_plain C allowed now s b

/-- `JOYBUTTONDOWN` handling of `main_loop`: debounce on the
`(joy, button)` pair, state reset, then — only in game — pressed-set
update, the two modifier combos (ABS/TC first), the light button, the
plain bindings; outside the game only the music shortcuts run. -/
def on_down (C : Config) (allowed : Bool) (now : Nat) (s : EngState)
    (joy b : Nat) : EngState × List OutEvent :=
  if now - lookup_last_down s.last_down_ms (joy, b) < DEBOUNCE_MS then (s, [])
  else
    let s1 : EngState :=
      { s with last_down_ms := ((joy, b), now) :: s.last_down_ms,
               states := s.states.set b
                 (reset_on_down now (s.states.getD b initButtonState)) }
    if allowed then
      let s2 := { s1 with pressed := pset_add s1.pressed b }
      match C.mod2_map b with
      | some k2 =>
          if C.mod2_btn_idx ∈ s2.pressed then
            combo_fire allowed s2 b C.mod2_btn_idx k2
          else down_arrow_or_plain C allowed now s2 b
      | none => down_arrow_or_plain C allowed now s2 b
    else
      (s1,
       if b = BTN_PLAY_PAUSE then [OutEvent.music "play_pause"]
       else if b = BTN_NEXT then [OutEvent.music "next"]
       else if b = BTN_PREV then [OutEvent.music "prev"] else [])

/-! ### JOYBUTTONUP handling of the combined script -/

/-- `JOYBUTTONUP` handling of `main_loop`: clear `is_down`; only in game:
discard from the pressed set, flash-on-release correction for the light
button (a corrective OFF tap when the phase is still ON, then
`stop_repeat`), `stop_hold`, the short/long decision when the press was
not suppressed, and Play/Pause on button 0 when not suppressed. -/
def on_up (C : Config) (allowed : Bool) (now : Nat) (s : EngState)
    (b : Nat) : EngState × List OutEvent :=
  let st0 := s.states.getD b initButtonState
  let st1 := { st0 with is_down := false }
  if allowed then
    let pr := pset_discard s.pressed b
    let q :=
      if b = C.light18_idx ∧ st1.repeat_mode = some RMode.flash18 then
        let qf :=
          if st1.flash_in_on_phase then
            ({ st1 with flash_toggle_count := st1.flash_toggle_count + 1 },
             tap_scancode allowed ["L"] 20)
          else (st1, ([] : List OutEvent))
        (qf.1.stop_repeat, qf.2)
      else (st1, ([] : List OutEvent))
    let h := q.1.stop_hold allowed
    let cfg := C.actions b
    let dur := now - h.1.down_ms
    let e3 :=
      if h.1.suppressed_until_up then ([] : List OutEvent)
      else if dur ≥ LONG_PRESS_MS then
        match cfg.long_scancode with
        | some ks => tap_scancode allowed ks 35
        | none => []
      else
        match cfg.short_scancode with
        | some ks => tap_scancode allowed ks 35
        | none =>
            match cfg.short_pulse_scancode with
            | some (k :: _) => pulse_scancode allowed k PULSE_ON_MS PULSE_GAP_MS
            | _ => []
    let e4 :=
      if b = BTN_PLAY_PAUSE ∧ h.1.suppressed_until_up = false then
        [OutEvent.music "play_pause"]
      else []
    ({ s with pressed := pr, states := s.states.set b h.1 },
     q.2 ++ h.2 ++ e3 ++ e4)
  else
    ({ s with states := s.states.set b st1 }, [])

/-! ### Per-tick continuation (hold-after-long, pulse repeat, flash18) -/

/-- Python truthiness of an optional-integer attribute. -/
def opt_truthy (o : Option Nat) : Bool :=
  match o with
  | none => false
  | some n => n != 0

/-- The per-button body of the tick section of `main_loop` (run for every
button while in game): start a pending hold once the long threshold is
reached (suppressing the release action), fire a periodic pulse unless
`repeat_after_long` still blocks it, and run one flash unit (ON tap,
phase flag up, OFF tap, phase flag down, toggle count plus two). -/
def tick_one (allowed : Bool) (now : Nat) (st : ButtonState) :
    ButtonState × List OutEvent :=
  let p1 :=
    match st.hold_after_long_pending with
    | some p =>
        if st.is_down = true ∧ p ≠ [] ∧ st.hold_keys = none then
          if now - st.down_ms ≥ LONG_PRESS_MS then
            let h := st.start_hold allowed p
            ({ h.1 with suppressed_until_up := true,
                        hold_after_long_pending := none }, h.2)
          else (st, ([] : List OutEvent))
        else (st, ([] : List OutEvent))
    | none => (st, ([] : List OutEvent))
  let p2 :=
    let st := p1.1
    if st.is_down = true ∧ st.repeat_mode = some RMode.pulse ∧
        opt_truthy st.repeat_every_ms = true then
      if st.repeat_after_long = true ∧ now - st.down_ms < LONG_PRESS_MS then
        (st, ([] : List OutEvent))
      else if st.next_repeat_ms = none ∨ now ≥ st.next_repeat_ms.getD 0 then
        let ep := match st.pulse_key with
          | some k => pulse_scancode allowed k PULSE_ON_MS PULSE_GAP_MS
          | none => []
        ({ st with next_repeat_ms := some (now + st.repeat_every_ms.getD 0) },
         ep)
      else (st, ([] : List OutEvent))
    else (st, ([] : List OutEvent))
  let p3 :=
    let st := p2.1
    if st.is_down = true ∧ st.repeat_mode = some RMode.flash18 ∧
        opt_truthy st.repeat_every_ms = true then
      if st.next_repeat_ms = none ∨ now ≥ st.next_repeat_ms.getD 0 then
        let ea := tap_scancode allowed ["L"] 10
        let stA := { st with flash_in_on_phase := true }
        let eb := tap_scancode allowed ["L"] 10
        let stB := { stA with flash_in_on_phase := false,
                              flash_toggle_count := stA.flash_toggle_count + 2,
                              next_repeat_ms :=
                                some (now + st.repeat_every_ms.getD 0) }
        (stB, ea ++ eb)
      else (st, ([] : List OutEvent))
    else (st, ([] : List OutEvent))
  (p3.1, p1.2 ++ p2.2 ++ p3.2)

/-- The tick section iterates over all button states in index order. -/
def tick_all (allowed : Bool) (now : Nat) (s : EngState) :
    EngState × List OutEvent :=
  ({ s with states := s.states.map (fun st => (tick_one allowed now st).1) },
   (s.states.map (fun st => (tick_one allowed now st).2)).flatten)

/-! ### One loop iteration and multi-iteration runs -/

inductive JEvent where
  | down (joy btn : Nat)
  | up (btn : Nat)
deriving DecidableEq, Repr

def handle_event (C : Config) (allowed : Bool) (now : Nat) (s : EngState)
    (e : JEvent) : EngState × List OutEvent :=
  match e with
  | JEvent.down joy b => on_down C allowed now s joy b
  | JEvent.up b => on_up C allowed now s b

def run_events (C : Config) (allowed : Bool) (now : Nat) (s : EngState)
    (evs : List JEvent) : EngState × List OutEvent :=
  evs.foldl
    (fun acc e =>
      let r := handle_event C allowed now acc.1 e
      (r.1, acc.2 ++ r.2))
    (s, [])

/-- One iteration of the 250 Hz loop: read `now` and the gate once, drain
the event queue, then run the tick section (ticks only happen in game). -/
def step_iter (C : Config) (allowed : Bool) (now : Nat) (s : EngState)
    (evs : List JEvent) : EngState × List OutEvent :=
  let r := run_events C allowed now s evs
  if allowed then
    let t := tick_all allowed now r.1
    (t.1, r.2 ++ t.2)
  else r

/-- A run of the main loop: each entry is one iteration's wall-clock
milliseconds, gate answer, and drained events. -/
def run_iters (C : Config) (iters : List (Nat × Bool × List JEvent))
    (s : EngState) : EngState × List OutEvent :=
  iters.foldl
    (fun acc it =>
      let r := step_iter C it.2.1 it.1 acc.1 it.2.2
      (r.1, acc.2 ++ r.2))
    (s, [])

/-! ### The stand-alone mapper variant (`moza_buttons_mapper.py`)

Same binding table and arrow-combo table; no ABS/TC modifier, no light
button, no debounce, no music.  Its combo branch suppresses only the
secondary button.  Only the event handlers are embedded (its tick section
is not needed by any claim about it). -/

inductive MRMode where
  | keys
  | pulse
deriving DecidableEq, Repr

structure MapperButtonState where
  is_down : Bool := false
  down_ms : Nat := 0
  suppressed_until_up : Bool := false
  hold_keys : Option (List String) := none
  hold_after_long_pending : Option (List String) := none
  repeat_mode : Option MRMode := none
  repeat_keys : Option (List String) := none
  repeat_every_ms : Option Nat := none
  repeat_after_long : Bool := false
  next_repeat_ms : Option Nat := none
  pulse_key : Option String := none
  pulse_on_ms : Nat := 0
  pulse_gap_ms : Nat := 0
  repeat_hold_ms : Nat := 40
deriving DecidableEq, Repr

def mInitButtonState : MapperButtonState := {}

/-- `hold_start` of the mapper: press all keys if the gate allows. -/
def hold_start (allowed : Bool) (keys : List String) : List OutEvent :=
  if allowed then keys.map OutEvent.keyDown else []

/-- `hold_stop` of the mapper: nothing for an empty list or a denied
gate, otherwise release in reverse order. -/
def hold_stop (allowed : Bool) (keys : List String) : List OutEvent :=
  if keys = [] then []
  else if allowed then keys.reverse.map OutEvent.keyUp else []

def MapperButtonState.start_hold (st : MapperButtonState) (allowed : Bool)
    (keys : List String) : MapperButtonState × List OutEvent :=
  ({ st with hold_keys := some keys }, hold_start allowed keys)

def MapperButtonState.stop_hold (st : MapperButtonState) (allowed : Bool) :
    MapperButtonState × List OutEvent :=
  let ev := match st.hold_keys with
    | some ks => if ks ≠ [] then hold_stop allowed ks else []
    | none => []
  ({ st with hold_keys := none }, ev)

def MapperButtonState.start_repeat_keys (st : MapperButtonState)
    (keys : List String) (every_ms : Nat) (after_long : Bool)
    (hold_ms : Nat) (now : Nat) : MapperButtonState :=
  { st with repeat_mode := some MRMode.keys, repeat_keys := some keys,
            repeat_every_ms := some every_ms,
            repeat_after_long := after_long, repeat_hold_ms := hold_ms,
            next_repeat_ms := some now }

def MapperButtonState.start_repeat_pulse (st : MapperButtonState)
    (key : String) (on_ms gap_ms period_ms : Nat) (after_long : Bool)
    (now : Nat) : MapperButtonState :=
  { st with repeat_mode := some MRMode.pulse, pulse_key := some key,
            pulse_on_ms := on_ms, pulse_gap_ms := gap_ms,
            repeat_every_ms := some period_ms,
            repeat_after_long := after_long, next_repeat_ms := some now }

def MapperButtonState.stop_repeat (st : MapperButtonState) :
    MapperButtonState :=
  { st with repeat_mode := none, repeat_keys := none, pulse_key := none,
            repeat_every_ms := none, next_repeat_ms := none }

structure MapperEngState where
  states : List MapperButtonState := []
  pressed : List Nat := []
deriving DecidableEq, Repr

def mEngInit (n : Nat) : MapperEngState :=
  { states := List.replicate n mInitButtonState, pressed := [] }

/-- Binding-dictionary handling of the mapper's down handler, after the
arrow combo did not fire. -/
def mapper_down_cfg (allowed : Bool) (now : Nat) (s : MapperEngState)
    (b : Nat) (st : MapperButtonState) : MapperEngState × List OutEvent :=
  let cfg := acActions b
  let p1 := match cfg.hold_scancode with
    | some ks => st.start_hold allowed ks
    | none => (st, ([] : List OutEvent))
  let st2 := match cfg.hold_after_long_scancode with
    | some ks => { p1.1 with hold_after_long_pending := some ks }
    | none => p1.1
  let st3 := match cfg.hold_repeat_pulse_scancode with
    | some (k :: _) =>
        st2.start_repeat_pulse k PULSE_ON_MS PULSE_GAP_MS PULSE_PERIOD_MS
          cfg.repeat_after_long now
    | _ => st2
  let st4 := match cfg.hold_repeat_scancode with
    | some (ks, period) =>
        st3.start_repeat_keys ks period cfg.repeat_after_long 40 now
    | none => st3
  ({ s with states := s.states.set b st4 }, p1.2)

/-- `JOYBUTTONDOWN` handling of the mapper's `run` loop (learn mode off).
Note there is no debounce, and the combo suppresses only the secondary
button's state. -/
def mapper_on_down (allowed : Bool) (now : Nat) (s : MapperEngState)
    (b : Nat) : MapperEngState × List OutEvent :=
  let s1 := { s with pressed := pset_add s.pressed b }
  let st0 := s1.states.getD b mInitButtonState
  let st1 := { st0 with is_down := true, down_ms := now,
                        suppressed_until_up := false }
  let st2 := { st1.stop_repeat with hold_after_long_pending := none }
  match acArrows b with
  | some ka =>
      if L_idx 1 ∈ s1.pressed then
        let ev := if allowed then tap_scancode allowed [ka] 35 else []
        ({ s1 with states := (s1.states.set b
            { st2 with suppressed_until_up := true }) }, ev)
      else mapper_down_cfg allowed now s1 b st2
  | none => mapper_down_cfg allowed now s1 b st2

/-- `JOYBUTTONUP` handling of the mapper's `run` loop: stop hold, stop
repeat, then the short/long decision when not suppressed. -/
def mapper_on_up (allowed : Bool) (now : Nat) (s : MapperEngState)
    (b : Nat) : MapperEngState × List OutEvent :=
  let s1 := { s with pressed := pset_discard s.pressed b }
  let st0 := s1.states.getD b mInitButtonState
  let st1 := { st0 with is_down := false }
  let h := st1.stop_hold allowed
  let st2 := h.1.stop_repeat
  let e2 :=
    if st2.suppressed_until_up then ([] : List OutEvent)
    else
      let dur := now - st2.down_ms
      let cfg := acActions b
      if dur ≥ LONG_PRESS_MS then
        match cfg.long_scancode with
        | some ks => if allowed then tap_scancode allowed ks 35 else []
        | none => []
      else
        match cfg.short_scancode with
        | some ks => if allowed then tap_scancode allowed ks 35 else []
        | none =>
            match cfg.short_pulse_scancode with
            | some (k :: _) => pulse_scancode allowed k PULSE_ON_MS PULSE_GAP_MS
            | _ => []
  ({ s1 with states := s1.states.set b st2 }, h.2 ++ e2)

/-! ### Permission gate (`get_fg_title`, `get_fg_proc_name`,
`allowed_to_send`)

The Windows introspection is modelled by an explicit environment: whether
a foreground window exists, its title, whether the owning process can be
opened and queried, and the process image path.  Each introspection
failure makes the corresponding source function return the empty
string. -/

structure FgEnv where
  has_fg_window : Bool
  window_title : String
  can_open_process : Bool
  can_query_image : Bool
  image_path : String
deriving DecidableEq, Repr

/-- ASCII lowercasing of one character (`str.lower()` on the names this
program compares). -/
def lower_char (c : Char) : Char :=
  if 65 ≤ c.toNat ∧ c.toNat ≤ 90 then Char.ofNat (c.toNat + 32) else c

def lower_str (s : String) : String := String.mk (s.toList.map lower_char)

/-- `path.split("\\")` at the character level. -/
def split_backslash : List Char → List (List Char)
  | [] => [[]]
  | c :: cs =>
      let r := split_backslash cs
      if c = '\\' then [] :: r
      else
        match r with
        | [] => [[c]]
        | h :: t => (c :: h) :: t

/-- Python's `needle in hay` substring test. -/
def contains_sub (needle hay : String) : Bool :=
  decide (needle.toList <:+: hay.toList)

def get_fg_title (env : FgEnv) : String :=
  if env.has_fg_window then env.window_title else ""

/-- `get_fg_proc_name`: empty string when there is no foreground window,
when the process handle cannot be opened, or when the image-name query
fails; otherwise the lowercased basename of the image path. -/
def get_fg_proc_name (env : FgEnv) : String :=
  if env.has_fg_window = false then ""
  else if env.can_open_process = false then ""
  else if env.can_query_image then
    lower_str (String.mk ((split_backslash env.image_path.toList).getLastD []))
  else ""

def ALLOWED_TITLE_SUBSTR : List String := ["assetto corsa", "content manager"]

def ALLOWED_PROC_SUBSTR : List String := ["acs.exe", "assettocorsa"]

/-- `allowed_to_send`: true when the lowercased foreground title contains
an allowed substring, or the foreground process name does. -/
def allowed_to_send (env : FgEnv) : Bool :=
  let title := lower_str (get_fg_title env)
  let proc := get_fg_proc_name env
  ALLOWED_TITLE_SUBSTR.any (fun s => contains_sub s title) ||
    ALLOWED_PROC_SUBSTR.any (fun s => contains_sub s proc)

/-! ### Helper lemmas -/

theorem getD_set_self {α} (l : List α) (i : Nat) (a d : α)
    (h : i < l.length) : (l.set i a).getD i d = a := by
  simp [List.getD, List.getElem?_set, h]

theorem getD_set_ne {α} (l : List α) (i j : Nat) (a d : α) (h : i ≠ j) :
    (l.set i a).getD j d = l.getD j d := by
  simp [List.getD, List.getElem?_set, h]

theorem flatten_nil_of_all {α β} (l : List α) (f : α → List β)
    (h : ∀ x ∈ l, f x = []) : (l.map f).flatten = [] := by
  induction l with
  | nil => simp
  | cons a as ih =>
      simp [h a (by simp), ih (fun x hx => h x (by simp [hx]))]

/-- A tick does nothing to a button that is not physically down. -/
theorem tick_one_not_down (a : Bool) (now : Nat) (st : ButtonState)
    (h : st.is_down = false) : tick_one a now st = (st, []) := by
  cases hp : st.hold_after_long_pending <;> simp [tick_one, h, hp]

/-- A tick does nothing to a button with no pending long-hold and no
repeat mode. -/
theorem tick_one_noop (a : Bool) (now : Nat) (st : ButtonState)
    (h1 : st.hold_after_long_pending = none) (h2 : st.repeat_mode = none) :
    tick_one a now st = (st, []) := by
  simp [tick_one, h1, h2]

/-- A tick does nothing to a pulse-repeat button whose `repeat_after_long`
flag is set while the press is still shorter than the long threshold. -/
theorem tick_one_pulse_wait (a : Bool) (now : Nat) (st : ButtonState)
    (h1 : st.hold_after_long_pending = none)
    (h2 : st.repeat_mode = some RMode.pulse)
    (h3 : st.repeat_after_long = true)
    (h4 : now - st.down_ms < LONG_PRESS_MS) :
    tick_one a now st = (st, []) := by
  simp [tick_one, h1, h2, h3, h4]

/-- The tick section is the identity on a state table all whose entries
tick to themselves with no output. -/
theorem tick_all_fix (a : Bool) (now : Nat) (s : EngState)
    (h : ∀ st ∈ s.states, tick_one a now st = (st, [])) :
    tick_all a now s = (s, []) := by
  unfold tick_all
  have h1 : s.states.map (fun st => (tick_one a now st).1) = s.states := by
    conv_rhs => rw [← List.map_id s.states]
    exact List.map_congr_left (fun x hx => by rw [h x hx]; rfl)
  have h2 : (s.states.map (fun st => (tick_one a now st).2)).flatten = [] :=
    flatten_nil_of_all _ _ (fun x hx => by rw [h x hx])
  rw [h1, h2]

theorem run_events_acc (C : Config) (a : Bool) (now : Nat)
    (evs : List JEvent) (s : EngState) (tr : List OutEvent) :
    evs.foldl
        (fun acc e => ((handle_event C a now acc.1 e).1,
                       acc.2 ++ (handle_event C a now acc.1 e).2))
        (s, tr)
      = ((run_events C a now s evs).1, tr ++ (run_events C a now s evs).2) := by
  induction evs generalizing s tr with
  | nil => simp [run_events]
  | cons e rest ih =>
      show List.foldl _ _ _ = _
      rw [List.foldl_cons]
      rw [ih]
      have hrhs : run_events C a now s (e :: rest)
          = ((run_events C a now (handle_event C a now s e).1 rest).1,
             [] ++ (handle_event C a now s e).2
               ++ (run_events C a now (handle_event C a now s e).1 rest).2) := by
        show List.foldl _ _ _ = _
        rw [List.foldl_cons, ih]
      rw [hrhs]
      simp

theorem run_events_cons (C : Config) (a : Bool) (now : Nat) (s : EngState)
    (e : JEvent) (rest : List JEvent) :
    run_events C a now s (e :: rest)
      = ((run_events C a now (handle_event C a now s e).1 rest).1,
         (handle_event C a now s e).2
           ++ (run_events C a now (handle_event C a now s e).1 rest).2) := by
  show List.foldl _ _ _ = _
  rw [List.foldl_cons, run_events_acc]
  simp

theorem run_iters_acc (C : Config) (iters : List (Nat × Bool × List JEvent))
    (s : EngState) (tr : List OutEvent) :
    iters.foldl
        (fun acc it => ((step_iter C it.2.1 it.1 acc.1 it.2.2).1,
                        acc.2 ++ (step_iter C it.2.1 it.1 acc.1 it.2.2).2))
        (s, tr)
      = ((run_iters C iters s).1, tr ++ (run_iters C iters s).2) := by
  induction iters generalizing s tr with
  | nil => simp [run_iters]
  | cons it rest ih =>
      show List.foldl _ _ _ = _
      rw [List.foldl_cons]
      rw [ih]
      have hrhs : run_iters C (it :: rest) s
          = ((run_iters C rest (step_iter C it.2.1 it.1 s it.2.2).1).1,
             [] ++ (step_iter C it.2.1 it.1 s it.2.2).2
               ++ (run_iters C rest (step_iter C it.2.1 it.1 s it.2.2).1).2) := by
        show List.foldl _ _ _ = _
        rw [List.foldl_cons, ih]
      rw [hrhs]
      simp

theorem run_iters_cons (C : Config) (now : Nat) (a : Bool)
    (evs : List JEvent) (rest : List (Nat × Bool × List JEvent))
    (s : EngState) :
    run_iters C ((now, a, evs) :: rest) s
      = ((run_iters C rest (step_iter C a now s evs).1).1,
         (step_iter C a now s evs).2
           ++ (run_iters C rest (step_iter C a now s evs).1).2) := by
  show List.foldl _ _ _ = _
  rw [List.foldl_cons, run_iters_acc]
  simp

theorem run_iters_append (C : Config) (l1 l2 : List (Nat × Bool × List JEvent))
    (s : EngState) :
    run_iters C (l1 ++ l2) s
      = ((run_iters C l2 (run_iters C l1 s).1).1,
         (run_iters C l1 s).2 ++ (run_iters C l2 (run_iters C l1 s).1).2) := by
  induction l1 generalizing s with
  | nil => simp [run_iters]
  | cons it rest ih =>
      obtain ⟨now, a, evs⟩ := it
      rw [List.cons_append, run_iters_cons, run_iters_cons, ih]
      simp

/-! ### One-button press/tick/release cycles from the fresh engine state

`one_button_cycle b t0 ts t1` is a run of the loop in which button `b` is
pressed in the iteration at time `t0`, the loop ticks with no events at
the times in `ts`, and `b` is released in the iteration at time `t1`; the
gate allows throughout and no other button is touched. -/

def one_button_cycle (b t0 : Nat) (ts : List Nat) (t1 : Nat) :
    EngState × List OutEvent :=
  run_iters acConfig
    ((t0, true, [JEvent.down 0 b])
      :: ts.map (fun t => (t, true, ([] : List JEvent)))
      ++ [(t1, true, [JEvent.up b])])
    (engInit 22)

/-- Engine state right after an accepted press of a plain hold button. -/
def hold_mid_state (b t0 : Nat) (ks : List String) : EngState :=
  { last_down_ms := [((0, b), t0)],
    states := ((List.replicate 22 initButtonState).set b
      { is_down := true, down_ms := t0, hold_keys := some ks }),
    pressed := [b] }

/-- Engine state right after the matching release. -/
def hold_end_state (b t0 : Nat) : EngState :=
  { last_down_ms := [((0, b), t0)],
    states := ((List.replicate 22 initButtonState).set b { down_ms := t0 }),
    pressed := [] }

/-- Engine state right after an accepted press of the pulse button 18
(wheel label 19). -/
def pulse_mid_state (t0 : Nat) : EngState :=
  { last_down_ms := [((0, 18), t0)],
    states := ((List.replicate 22 initButtonState).set 18
      { is_down := true, down_ms := t0, repeat_mode := some RMode.pulse,
        repeat_every_ms := some PULSE_PERIOD_MS, repeat_after_long := true,
        next_repeat_ms := some t0, pulse_key := some "L" }),
    pressed := [18] }

def pulse_end_state (t0 : Nat) : EngState :=
  { last_down_ms := [((0, 18), t0)],
    states := ((List.replicate 22 initButtonState).set 18
      { down_ms := t0, repeat_mode := some RMode.pulse,
        repeat_every_ms := some PULSE_PERIOD_MS, repeat_after_long := true,
        next_repeat_ms := some t0, pulse_key := some "L" }),
    pressed := [] }

theorem engInit_no_debounce (n joy b t0 : Nat) (h : 120 ≤ t0) :
    ¬ (t0 - lookup_last_down (engInit n).last_down_ms (joy, b)
        < DEBOUNCE_MS) := by
  simp [engInit, lookup_last_down, DEBOUNCE_MS]
  omega

theorem press7_from_init (t0 : Nat) (h : 120 ≤ t0) :
    on_down acConfig true t0 (engInit 22) 0 7
      = (hold_mid_state 7 t0 ["Q"], [OutEvent.keyDown "Q"]) := by
  unfold on_down
  rw [if_neg (engInit_no_debounce 22 0 7 t0 h)]
  rfl

theorem press5_from_init (t0 : Nat) (h : 120 ≤ t0) :
    on_down acConfig true t0 (engInit 22) 0 5
      = (hold_mid_state 5 t0 ["E"], [OutEvent.keyDown "E"]) := by
  unfold on_down
  rw [if_neg (engInit_no_debounce 22 0 5 t0 h)]
  rfl

theorem press18_from_init (t0 : Nat) (h : 120 ≤ t0) :
    on_down acConfig true t0 (engInit 22) 0 18
      = (pulse_mid_state t0, []) := by
  unfold on_down
  rw [if_neg (engInit_no_debounce 22 0 18 t0 h)]
  rfl

theorem tick_hold_mid (a : Bool) (now b t0 : Nat) (ks : List String) :
    tick_all a now (hold_mid_state b t0 ks) = (hold_mid_state b t0 ks, []) := by
  apply tick_all_fix
  intro st hst
  rcases List.mem_or_eq_of_mem_set hst with hmem | heq
  · rw [List.eq_of_mem_replicate hmem]
    exact tick_one_noop _ _ _ rfl rfl
  · subst heq
    exact tick_one_noop _ _ _ rfl rfl

theorem tick_hold_end (a : Bool) (now b t0 : Nat) :
    tick_all a now (hold_end_state b t0) = (hold_end_state b t0, []) := by
  apply tick_all_fix
  intro st hst
  rcases List.mem_or_eq_of_mem_set hst with hmem | heq
  · rw [List.eq_of_mem_replicate hmem]
    exact tick_one_noop _ _ _ rfl rfl
  · subst heq
    exact tick_one_noop _ _ _ rfl rfl

theorem tick_pulse_mid (a : Bool) (now t0 : Nat)
    (h : now - t0 < LONG_PRESS_MS) :
    tick_all a now (pulse_mid_state t0) = (pulse_mid_state t0, []) := by
  apply tick_all_fix
  intro st hst
  rcases List.mem_or_eq_of_mem_set hst with hmem | heq
  · rw [List.eq_of_mem_replicate hmem]
    exact tick_one_noop _ _ _ rfl rfl
  · subst heq
    exact tick_one_pulse_wait _ _ _ rfl rfl rfl h

theorem tick_pulse_end (a : Bool) (now t0 : Nat) :
    tick_all a now (pulse_end_state t0) = (pulse_end_state t0, []) := by
  apply tick_all_fix
  intro st hst
  rcases List.mem_or_eq_of_mem_set hst with hmem | heq
  · rw [List.eq_of_mem_replicate hmem]
    exact tick_one_noop _ _ _ rfl rfl
  · subst heq
    exact tick_one_not_down _ _ _ rfl

theorem step_down7 (t0 : Nat) (h : 120 ≤ t0) :
    step_iter acConfig true t0 (engInit 22) [JEvent.down 0 7]
      = (hold_mid_state 7 t0 ["Q"], [OutEvent.keyDown "Q"]) := by
  have hev : run_events acConfig true t0 (engInit 22) [JEvent.down 0 7]
      = (hold_mid_state 7 t0 ["Q"], [OutEvent.keyDown "Q"]) := by
    rw [run_events_cons]
    simp only [handle_event]
    rw [press7_from_init t0 h]
    simp [run_events]
  simp only [step_iter, hev]
  rw [tick_hold_mid]
  simp

theorem step_down5 (t0 : Nat) (h : 120 ≤ t0) :
    step_iter acConfig true t0 (engInit 22) [JEvent.down 0 5]
      = (hold_mid_state 5 t0 ["E"], [OutEvent.keyDown "E"]) := by
  have hev : run_events acConfig true t0 (engInit 22) [JEvent.down 0 5]
      = (hold_mid_state 5 t0 ["E"], [OutEvent.keyDown "E"]) := by
    rw [run_events_cons]
    simp only [handle_event]
    rw [press5_from_init t0 h]
    simp [run_events]
  simp only [step_iter, hev]
  rw [tick_hold_mid]
  simp

theorem step_down18 (t0 : Nat) (h : 120 ≤ t0) :
    step_iter acConfig true t0 (engInit 22) [JEvent.down 0 18]
      = (pulse_mid_state t0, []) := by
  have hev : run_events acConfig true t0 (engInit 22) [JEvent.down 0 18]
      = (pulse_mid_state t0, []) := by
    rw [run_events_cons]
    simp only [handle_event]
    rw [press18_from_init t0 h]
    simp [run_events]
  simp only [step_iter, hev]
  rw [tick_pulse_mid true t0 t0 (by simp [LONG_PRESS_MS])]
  simp

theorem run_mids_hold (b t0 : Nat) (ks : List String) (ts : List Nat) :
    run_iters acConfig (ts.map (fun t => (t, true, ([] : List JEvent))))
        (hold_mid_state b t0 ks)
      = (hold_mid_state b t0 ks, []) := by
  induction ts with
  | nil => simp [run_iters]
  | cons t rest ih =>
      rw [List.map_cons, run_iters_cons]
      have hstep : step_iter acConfig true t (hold_mid_state b t0 ks) []
          = (hold_mid_state b t0 ks, []) := by
        simp only [step_iter]
        rw [show run_events acConfig true t (hold_mid_state b t0 ks) []
            = (hold_mid_state b t0 ks, []) from rfl]
        rw [tick_hold_mid]
        simp
      rw [hstep, ih]
      simp

theorem run_mids_pulse (t0 : Nat) (ts : List Nat)
    (h : ∀ t ∈ ts, t - t0 < LONG_PRESS_MS) :
    run_iters acConfig (ts.map (fun t => (t, true, ([] : List JEvent))))
        (pulse_mid_state t0)
      = (pulse_mid_state t0, []) := by
  induction ts with
  | nil => simp [run_iters]
  | cons t rest ih =>
      rw [List.map_cons, run_iters_cons]
      have hstep : step_iter acConfig true t (pulse_mid_state t0) []
          = (pulse_mid_state t0, []) := by
        simp only [step_iter]
        rw [show run_events acConfig true t (pulse_mid_state t0) []
            = (pulse_mid_state t0, []) from rfl]
        rw [tick_pulse_mid true t t0 (h t (by simp))]
        simp
      rw [hstep, ih (fun x hx => h x (by simp [hx]))]
      simp

theorem step_up7 (t0 t1 : Nat) :
    step_iter acConfig true t1 (hold_mid_state 7 t0 ["Q"]) [JEvent.up 7]
      = (hold_end_state 7 t0, [OutEvent.keyUp "Q"]) := by
  have hup : on_up acConfig true t1 (hold_mid_state 7 t0 ["Q"]) 7
      = (hold_end_state 7 t0, [OutEvent.keyUp "Q"]) := by
    simp [on_up, hold_mid_state, hold_end_state, ButtonState.stop_hold,
      acConfig, acActions, acArrows, acMod2Map, L_idx, ONE_BASED_LABELS,
      pset_discard, tap_scancode, pulse_scancode, BTN_PLAY_PAUSE,
      getD_set_self, getD_set_ne, List.set_set, List.length_set,
      List.length_replicate, LONG_PRESS_MS]
  have hev : run_events acConfig true t1 (hold_mid_state 7 t0 ["Q"])
      [JEvent.up 7] = (hold_end_state 7 t0, [OutEvent.keyUp "Q"]) := by
    rw [run_events_cons]
    simp only [handle_event]
    rw [hup]
    simp [run_events]
  simp only [step_iter, hev]
  rw [tick_hold_end]
  simp

theorem step_up5 (t0 t1 : Nat) :
    step_iter acConfig true t1 (hold_mid_state 5 t0 ["E"]) [JEvent.up 5]
      = (hold_end_state 5 t0, [OutEvent.keyUp "E"]) := by
  have hup : on_up acConfig true t1 (hold_mid_state 5 t0 ["E"]) 5
      = (hold_end_state 5 t0, [OutEvent.keyUp "E"]) := by
    simp [on_up, hold_mid_state, hold_end_state, ButtonState.stop_hold,
      acConfig, acActions, acArrows, acMod2Map, L_idx, ONE_BASED_LABELS,
      pset_discard, tap_scancode, pulse_scancode, BTN_PLAY_PAUSE,
      getD_set_self, getD_set_ne, List.set_set, List.length_set,
      List.length_replicate, LONG_PRESS_MS]
  have hev : run_events acConfig true t1 (hold_mid_state 5 t0 ["E"])
      [JEvent.up 5] = (hold_end_state 5 t0, [OutEvent.keyUp "E"]) := by
    rw [run_events_cons]
    simp only [handle_event]
    rw [hup]
    simp [run_events]
  simp only [step_iter, hev]
  rw [tick_hold_end]
  simp

theorem step_up18 (t0 : Nat) :
    step_iter acConfig true (t0 + 80) (pulse_mid_state t0) [JEvent.up 18]
      = (pulse_end_state t0,
         [OutEvent.keyDown "L", OutEvent.keyUp "L",
          OutEvent.keyDown "L", OutEvent.keyUp "L"]) := by
  have hup : on_up acConfig true (t0 + 80) (pulse_mid_state t0) 18
      = (pulse_end_state t0,
         [OutEvent.keyDown "L", OutEvent.keyUp "L",
          OutEvent.keyDown "L", OutEvent.keyUp "L"]) := by
    simp [on_up, pulse_mid_state, pulse_end_state, ButtonState.stop_hold,
      acConfig, acActions, acArrows, acMod2Map, L_idx, ONE_BASED_LABELS,
      pset_discard, tap_scancode, pulse_scancode, BTN_PLAY_PAUSE,
      getD_set_self, getD_set_ne, List.set_set, List.length_set,
      List.length_replicate, LONG_PRESS_MS, Nat.add_sub_cancel_left]
  have hev : run_events acConfig true (t0 + 80) (pulse_mid_state t0)
      [JEvent.up 18]
      = (pulse_end_state t0,
         [OutEvent.keyDown "L", OutEvent.keyUp "L",
          OutEvent.keyDown "L", OutEvent.keyUp "L"]) := by
    rw [run_events_cons]
    simp only [handle_event]
    rw [hup]
    simp [run_events]
  simp only [step_iter, hev]
  rw [tick_pulse_end]
  simp

/-! ### Claim theorems -/

/-- C2: for every button whose binding declares `holdAction` (buttons
7 and 5, wheel labels 8 and 6, holding Q and E), one press/release cycle
emits the key-down of each held key exactly once and the key-up of each
held key exactly once, whatever the press duration and however many ticks
happen in between; and in general `stop_hold` releases the held key list
exactly once in reverse order of the binding's key list. -/
theorem C2_hold_down_up_once :
    (∀ (st : ButtonState) (ks : List String),
       st.hold_keys = some ks → ks ≠ [] →
       (st.stop_hold true).2 = ks.reverse.map OutEvent.keyUp ∧
       (st.stop_hold true).1.hold_keys = none) ∧
    (∀ (t0 : Nat) (ts : List Nat) (t1 : Nat), 120 ≤ t0 →
       (one_button_cycle 7 t0 ts t1).2
         = [OutEvent.keyDown "Q", OutEvent.keyUp "Q"]) ∧
    (∀ (t0 : Nat) (ts : List Nat) (t1 : Nat), 120 ≤ t0 →
       (one_button_cycle 5 t0 ts t1).2
         = [OutEvent.keyDown "E", OutEvent.keyUp "E"]) := by
  refine ⟨?_, ?_, ?_⟩
  · intro st ks h1 h2
    simp [ButtonState.stop_hold, h1, h2]
  · intro t0 ts t1 h
    unfold one_button_cycle
    have h1 : run_iters acConfig
        ((t0, true, [JEvent.down 0 7])
          :: ts.map (fun t => (t, true, ([] : List JEvent)))) (engInit 22)
        = (hold_mid_state 7 t0 ["Q"], [OutEvent.keyDown "Q"]) := by
      rw [run_iters_cons, step_down7 t0 h, run_mids_hold]
      simp
    have h2 : run_iters acConfig [(t1, true, [JEvent.up 7])]
        (hold_mid_state 7 t0 ["Q"])
        = (hold_end_state 7 t0, [OutEvent.keyUp "Q"]) := by
      rw [run_iters_cons, step_up7 t0 t1]
      simp [run_iters]
    rw [run_iters_append, h1]
    simp only [h2]
    simp
  · intro t0 ts t1 h
    unfold one_button_cycle
    have h1 : run_iters acConfig
        ((t0, true, [JEvent.down 0 5])
          :: ts.map (fun t => (t, true, ([] : List JEvent)))) (engInit 22)
        = (hold_mid_state 5 t0 ["E"], [OutEvent.keyDown "E"]) := by
      rw [run_iters_cons, step_down5 t0 h, run_mids_hold]
      simp
    have h2 : run_iters acConfig [(t1, true, [JEvent.up 5])]
        (hold_mid_state 5 t0 ["E"])
        = (hold_end_state 5 t0, [OutEvent.keyUp "E"]) := by
      rw [run_iters_cons, step_up5 t0 t1]
      simp [run_iters]
    rw [run_iters_append, h1]
    simp only [h2]
    simp

/-- Witness for C2 at a concrete cycle: button 7 pressed at 1000, ticks
at 1004 and 5000, released at 999999, and a concrete two-key
`stop_hold`. -/
theorem C2_hold_down_up_once_witness :
    (one_button_cycle 7 1000 [1004, 5000] 999999).2
      = [OutEvent.keyDown "Q", OutEvent.keyUp "Q"] ∧
    (one_button_cycle 5 1000 [] 1001).2
      = [OutEvent.keyDown "E", OutEvent.keyUp "E"] ∧
    (ButtonState.stop_hold { hold_keys := some ["A", "B"] } true).2
      = [OutEvent.keyUp "B", OutEvent.keyUp "A"] :=
  ⟨C2_hold_down_up_once.2.1 1000 [1004, 5000] 999999 (by decide),
   C2_hold_down_up_once.2.2 1000 [] 1001 (by decide),
   (C2_hold_down_up_once.1 { hold_keys := some ["A", "B"] } ["A", "B"]
      rfl (by decide)).1⟩

/-- C4: button 18 (wheel label 19, `shortPulse = repeatPulse = 'L'`,
`repeatAfterLong = true`): a press at `t0` released at `t0 + 80` ms, with
any loop ticks whose elapsed time stays under `LONG_PRESS_MS`, emits
exactly one `pulse('L')` — two taps of L — at release, and zero periodic
repeat pulses; the constants are `LONG_PRESS_MS = 250`,
`PULSE_PERIOD_MS = 90`. -/
theorem C4_short_release_single_pulse :
    (∀ (t0 : Nat) (ts : List Nat), 120 ≤ t0 →
       (∀ t ∈ ts, t - t0 < LONG_PRESS_MS) →
       (one_button_cycle 18 t0 ts (t0 + 80)).2
         = pulse_scancode true "L" PULSE_ON_MS PULSE_GAP_MS) ∧
    pulse_scancode true "L" PULSE_ON_MS PULSE_GAP_MS
      = [OutEvent.keyDown "L", OutEvent.keyUp "L",
         OutEvent.keyDown "L", OutEvent.keyUp "L"] ∧
    LONG_PRESS_MS = 250 ∧ PULSE_PERIOD_MS = 90 := by
  refine ⟨?_, by decide, rfl, rfl⟩
  intro t0 ts h hts
  unfold one_button_cycle
  have h1 : run_iters acConfig
      ((t0, true, [JEvent.down 0 18])
        :: ts.map (fun t => (t, true, ([] : List JEvent)))) (engInit 22)
      = (pulse_mid_state t0, []) := by
    rw [run_iters_cons, step_down18 t0 h, run_mids_pulse t0 ts hts]
    simp
  have h2 : run_iters acConfig [(t0 + 80, true, [JEvent.up 18])]
      (pulse_mid_state t0)
      = (pulse_end_state t0,
         [OutEvent.keyDown "L", OutEvent.keyUp "L",
          OutEvent.keyDown "L", OutEvent.keyUp "L"]) := by
    rw [run_iters_cons, step_up18 t0]
    simp [run_iters]
  rw [run_iters_append, h1]
  simp only [h2]
  simp [pulse_scancode, tap_scancode]

/-- Witness for C4: press at 1000, ticks at 1004 and 1100, release at
1080. -/
theorem C4_short_release_single_pulse_witness :
    (one_button_cycle 18 1000 [1004, 1100] (1000 + 80)).2
      = pulse_scancode true "L" PULSE_ON_MS PULSE_GAP_MS :=
  C4_short_release_single_pulse.1 1000 [1004, 1100] (by decide) (by decide)

/-- C3: releasing the flash button (index 17, wheel label 18) while the
recorded phase is ON emits exactly one corrective OFF tap of L and then
clears the repeat state, so the release never leaves the controlled
output in the ON phase. -/
theorem C3_flash_release_corrective (s : EngState) (now : Nat)
    (hlen : 17 < s.states.length)
    (hmode : (s.states.getD 17 initButtonState).repeat_mode
      = some RMode.flash18)
    (hph : (s.states.getD 17 initButtonState).flash_in_on_phase = true)
    (hhold : (s.states.getD 17 initButtonState).hold_keys = none) :
    (on_up acConfig true now s 17).2
      = [OutEvent.keyDown "L", OutEvent.keyUp "L"] ∧
    ((on_up acConfig true now s 17).1.states.getD 17
      initButtonState).repeat_mode = none ∧
    ((on_up acConfig true now s 17).1.states.getD 17
      initButtonState).flash_in_on_phase = false ∧
    ((on_up acConfig true now s 17).1.states.getD 17
      initButtonState).flash_toggle_count
      = (s.states.getD 17 initButtonState).flash_toggle_count + 1 := by
  simp only [List.getD_eq_getElem?_getD] at hmode hph hhold
  simp only [List.getElem?_eq_getElem hlen, Option.getD_some]
    at hmode hph hhold
  simp [on_up, hmode, hph, hhold, acConfig, acActions, L_idx,
    ONE_BASED_LABELS, ButtonState.stop_hold, ButtonState.stop_repeat,
    tap_scancode, BTN_PLAY_PAUSE, List.getElem?_set, hlen,
    pset_discard, LONG_PRESS_MS]

/-- Witness for C3: a concrete 22-button state with the flash button
mid-phase. -/
theorem C3_flash_release_corrective_witness :
    (on_up acConfig true 700
        { last_down_ms := [((0, 17), 500)],
          states := ((List.replicate 22 initButtonState).set 17
            { is_down := true, down_ms := 500,
              repeat_mode := some RMode.flash18,
              repeat_every_ms := some 90, next_repeat_ms := some 590,
              flash_in_on_phase := true, flash_toggle_count := 3 }),
          pressed := [17] } 17).2
      = [OutEvent.keyDown "L", OutEvent.keyUp "L"] :=
  (C3_flash_release_corrective
    { last_down_ms := [((0, 17), 500)],
      states := ((List.replicate 22 initButtonState).set 17
        { is_down := true, down_ms := 500,
          repeat_mode := some RMode.flash18,
          repeat_every_ms := some 90, next_repeat_ms := some 590,
          flash_in_on_phase := true, flash_toggle_count := 3 }),
      pressed := [17] } 700 (by decide) (by decide) (by decide)
    (by decide)).1

/-- C5: the long-press classification is `>=`, not `>`.  First conjunct:
a release whose duration is exactly `LONG_PRESS_MS` takes the long
branch — the trace is exactly what the long binding produces (nothing
when no `long_scancode` is configured), never the short action.  Second
conjunct: a pending hold-after-long starts on a tick with elapsed time
`>= LONG_PRESS_MS` (equality included), pressing the keys and suppressing
the release action.  Third conjunct: below the threshold the pending hold
does not start. -/
theorem C5_long_threshold_is_ge :
    (∀ (C : Config) (s : EngState) (b now : Nat),
       (s.states.getD b initButtonState).suppressed_until_up = false →
       (s.states.getD b initButtonState).hold_keys = none →
       (s.states.getD b initButtonState).repeat_mode ≠ some RMode.flash18 →
       b ≠ BTN_PLAY_PAUSE →
       now - (s.states.getD b initButtonState).down_ms = LONG_PRESS_MS →
       (on_up C true now s b).2
         = (match (C.actions b).long_scancode with
            | some ks => tap_scancode true ks 35
            | none => [])) ∧
    (∀ (st : ButtonState) (now : Nat) (p : List String),
       st.is_down = true → st.hold_after_long_pending = some p → p ≠ [] →
       st.hold_keys = none → st.repeat_mode = none →
       now - st.down_ms ≥ LONG_PRESS_MS →
       (tick_one true now st).1.hold_keys = some p ∧
       (tick_one true now st).1.suppressed_until_up = true ∧
       (tick_one true now st).1.hold_after_long_pending = none ∧
       (tick_one true now st).2 = p.map OutEvent.keyDown) ∧
    (∀ (st : ButtonState) (now : Nat),
       now - st.down_ms < LONG_PRESS_MS →
       (tick_one true now st).1.hold_keys = st.hold_keys ∧
       (tick_one true now st).1.hold_after_long_pending
         = st.hold_after_long_pending) := by
  refine ⟨?_, ?_, ?_⟩
  · intro C s b now h1 h2 h3 h4 h5
    simp only [List.getD_eq_getElem?_getD] at h1 h2 h3 h5
    simp only [BTN_PLAY_PAUSE] at h4
    simp [on_up, h1, h2, h3, h4, h5, ButtonState.stop_hold,
      ButtonState.stop_repeat, BTN_PLAY_PAUSE]
  · intro st now p h1 h2 h3 h4 h5 h6
    simp [tick_one, h1, h2, h3, h4, h5, h6, ButtonState.start_hold]
  · intro st now h1
    cases hp : st.hold_after_long_pending with
    | none =>
        unfold tick_one
        simp only [hp]
        split_ifs <;> simp [hp]
    | some p =>
        unfold tick_one
        simp only [hp]
        split_ifs <;> first
          | (exfalso; omega)
          | simp [hp]

/-- Witness for C5: duration exactly 250 on button 21 (no long binding,
short F1 must not fire); a pending W hold started at exactly 250; not
started at 249. -/
theorem C5_long_threshold_is_ge_witness :
    (on_up acConfig true 1250
        { last_down_ms := [((0, 21), 1000)],
          states := ((List.replicate 22 initButtonState).set 21
            { is_down := true, down_ms := 1000,
              hold_after_long_pending := some ["W"] }),
          pressed := [21] } 21).2 = [] ∧
    (tick_one true 250
        { is_down := true, down_ms := 0,
          hold_after_long_pending := some ["W"] }).1.hold_keys
      = some ["W"] ∧
    (tick_one true 249
        { is_down := true, down_ms := 0,
          hold_after_long_pending := some ["W"] }).1.hold_keys = none :=
  ⟨C5_long_threshold_is_ge.1 acConfig
      { last_down_ms := [((0, 21), 1000)],
        states := ((List.replicate 22 initButtonState).set 21
          { is_down := true, down_ms := 1000,
            hold_after_long_pending := some ["W"] }),
        pressed := [21] } 21 1250 (by decide) (by decide) (by decide)
      (by decide) (by decide),
   (C5_long_threshold_is_ge.2.1
      { is_down := true, down_ms := 0,
        hold_after_long_pending := some ["W"] } 250 ["W"] rfl rfl
      (by decide) rfl rfl (by decide)).1,
   by
     have h := (C5_long_threshold_is_ge.2.2
       { is_down := true, down_ms := 0,
         hold_after_long_pending := some ["W"] } 249 (by decide)).1
     simpa using h⟩

theorem lookup_cons_self (l : List ((Nat × Nat) × Nat)) (k : Nat × Nat)
    (v : Nat) : lookup_last_down ((k, v) :: l) k = v := by
  simp [lookup_last_down, List.find?]

theorem combo_fire_last (a : Bool) (s : EngState) (b m : Nat) (k : String) :
    (combo_fire a s b m k).1.last_down_ms = s.last_down_ms := by
  unfold combo_fire set_suppressed
  dsimp only
  split_ifs <;> rfl

theorem down_plain_last (C : Config) (a : Bool) (now : Nat) (s : EngState)
    (b : Nat) : (down_plain C a now s b).1.last_down_ms = s.last_down_ms := by
  unfold down_plain
  split_ifs <;> rfl

theorem daop_last (C : Config) (a : Bool) (now : Nat) (s : EngState)
    (b : Nat) :
    (down_arrow_or_plain C a now s b).1.last_down_ms = s.last_down_ms := by
  unfold down_arrow_or_plain
  cases hm : C.arrows b with
  | some k =>
      simp only [hm]
      split_ifs
      · exact combo_fire_last _ _ _ _ _
      · exact down_plain_last _ _ _ _ _
  | none =>
      simp only [hm]
      exact down_plain_last _ _ _ _ _

/-- An accepted press records its timestamp at the head of the debounce
dictionary; no later part of the down handler touches it. -/
theorem on_down_accept_last (C : Config) (a : Bool) (now : Nat)
    (s : EngState) (joy b : Nat)
    (h : ¬ (now - lookup_last_down s.last_down_ms (joy, b) < DEBOUNCE_MS)) :
    (on_down C a now s joy b).1.last_down_ms
      = ((joy, b), now) :: s.last_down_ms := by
  unfold on_down
  rw [if_neg h]
  split_ifs with ha
  · cases hm : C.mod2_map b with
    | some k2 =>
        simp only [hm]
        split_ifs
        · rw [combo_fire_last]
        · rw [daop_last]
    | none =>
        simp only [hm]
        rw [daop_last]
  all_goals rfl

/-- C6: a DOWN of the same `(deviceId, buttonIndex)` pair strictly within
`DEBOUNCE_MS` of the previously accepted DOWN is ignored — the engine
state is unchanged and nothing is emitted; hence two presses of the same
button within `DEBOUNCE_MS` yield a single accepted DOWN transition. -/
theorem C6_debounce_rejects :
    (∀ (C : Config) (a : Bool) (now : Nat) (s : EngState) (joy b : Nat),
       now - lookup_last_down s.last_down_ms (joy, b) < DEBOUNCE_MS →
       on_down C a now s joy b = (s, [])) ∧
    (∀ (C : Config) (a : Bool) (s : EngState) (joy b now1 now2 : Nat),
       ¬ (now1 - lookup_last_down s.last_down_ms (joy, b) < DEBOUNCE_MS) →
       now2 - now1 < DEBOUNCE_MS →
       on_down C a now2 (on_down C a now1 s joy b).1 joy b
         = ((on_down C a now1 s joy b).1, [])) := by
  have hrej : ∀ (C : Config) (a : Bool) (now : Nat) (s : EngState)
      (joy b : Nat),
      now - lookup_last_down s.last_down_ms (joy, b) < DEBOUNCE_MS →
      on_down C a now s joy b = (s, []) := by
    intro C a now s joy b h
    unfold on_down
    rw [if_pos h]
  refine ⟨hrej, ?_⟩
  intro C a s joy b now1 now2 h1 h2
  apply hrej
  rw [on_down_accept_last C a now1 s joy b h1, lookup_cons_self]
  exact h2

/-- Witness for C6: button 5 accepted at 1000, pressed again at 1050. -/
theorem C6_debounce_rejects_witness :
    on_down acConfig true 1050
        (on_down acConfig true 1000 (engInit 22) 0 5).1 0 5
      = ((on_down acConfig true 1000 (engInit 22) 0 5).1, []) :=
  C6_debounce_rejects.2 acConfig true (engInit 22) 0 5 1000 1050
    (by decide) (by decide)

/-- C7: when the permission gate denies at the moment `tap_scancode` is
invoked, the call is a complete no-op: it emits no key-down and no key-up
injection for any key (and, taking no state, it cannot record a key as
logically held — only `start_hold` writes `hold_keys`).  The same holds
for `pulse_scancode`. -/
theorem C7_gate_denied_noop :
    (∀ (keys_down : List String) (hold_ms : Nat),
       tap_scancode false keys_down hold_ms = []) ∧
    (∀ (key : String) (on_ms gap_ms : Nat),
       pulse_scancode false key on_ms gap_ms = []) :=
  ⟨fun _ _ => rfl, fun _ _ _ => rfl⟩

/-- C9: UP events bypass the debounce.  Button 21 (short action F1) is
pressed at 1000 and released at 1050 (first F1 tap); a second press at
1100 is rejected by the debounce (`1100 - 1000 < 120`), yet its release
at 1150 runs the full release handling, computes the duration from the
previous accepted press's timestamp (`1150 - 1000`, still short) and
emits a second F1 tap — two short actions for one accepted DOWN (the
debounce dictionary still holds only the 1000 entry). -/
theorem C9_up_bypasses_debounce :
    (run_iters acConfig
        [(1000, true, [JEvent.down 0 21]), (1050, true, [JEvent.up 21]),
         (1100, true, [JEvent.down 0 21]), (1150, true, [JEvent.up 21])]
        (engInit 22)).2
      = [OutEvent.keyDown "F1", OutEvent.keyUp "F1",
         OutEvent.keyDown "F1", OutEvent.keyUp "F1"] ∧
    (run_iters acConfig
        [(1000, true, [JEvent.down 0 21]), (1050, true, [JEvent.up 21]),
         (1100, true, [JEvent.down 0 21]), (1150, true, [JEvent.up 21])]
        (engInit 22)).1.last_down_ms = [((0, 21), 1000)] :=
  ⟨by decide, by decide⟩

theorem mem_pset_add (l : List Nat) (b x : Nat) (h : x ∈ l) :
    x ∈ pset_add l b := by
  unfold pset_add
  split_ifs <;> simp [h]

theorem not_mem_pset_add (l : List Nat) (b x : Nat) (h1 : x ∉ l)
    (h2 : x ≠ b) : x ∉ pset_add l b := by
  unfold pset_add
  split_ifs <;> simp [h1, h2]

theorem acMod2Map_cases (b : Nat) (k : String) (h : acMod2Map b = some k) :
    b = 7 ∨ b = 5 ∨ b = 4 ∨ b = 6 := by
  by_contra hc
  push_neg at hc
  obtain ⟨n7, n5, n4, n6⟩ := hc
  simp [acMod2Map, n7, n5, n4, n6] at h

theorem acArrows_cases (b : Nat) (k : String) (h : acArrows b = some k) :
    b = 7 ∨ b = 6 ∨ b = 5 ∨ b = 4 := by
  by_contra hc
  push_neg at hc
  obtain ⟨n7, n6, n5, n4⟩ := hc
  simp [acArrows, L_idx, ONE_BASED_LABELS, n7, n6, n5, n4] at h

/-- C1, corrected.  In the combined script, a combo press — secondary
button `b` mapped to key `k`, modifier held — emits a single tap of `k`,
marks BOTH the secondary's and the modifier's `ButtonState` as
`suppressed_until_up`, and starts no hold or repeat; a suppressed press's
release then emits nothing at all (no short/long action, no Play/Pause).
This holds for both combos: the ABS/TC modifier (raw index 3, checked
first) and the arrow modifier (index 0, wheel label 1).  In the
stand-alone mapper, by contrast, a combo press suppresses only the
secondary button and leaves the modifier's flag untouched; the modifier's
release still emits nothing there because it has no bound action. -/
theorem C1_combo_suppression :
    (∀ (s : EngState) (joy b now : Nat) (k : String),
       acConfig.mod2_map b = some k →
       (3 : Nat) ∈ s.pressed →
       ¬ (now - lookup_last_down s.last_down_ms (joy, b) < DEBOUNCE_MS) →
       b < s.states.length → 3 < s.states.length →
       (on_down acConfig true now s joy b).2
         = [OutEvent.keyDown k, OutEvent.keyUp k] ∧
       ((on_down acConfig true now s joy b).1.states.getD b
         initButtonState).suppressed_until_up = true ∧
       ((on_down acConfig true now s joy b).1.states.getD 3
         initButtonState).suppressed_until_up = true ∧
       ((on_down acConfig true now s joy b).1.states.getD b
         initButtonState).repeat_mode = none ∧
       ((on_down acConfig true now s joy b).1.states.getD b
         initButtonState).hold_keys
         = (s.states.getD b initButtonState).hold_keys) ∧
    (∀ (s : EngState) (joy b now : Nat) (k : String),
       acConfig.arrows b = some k →
       (0 : Nat) ∈ s.pressed → (3 : Nat) ∉ s.pressed →
       ¬ (now - lookup_last_down s.last_down_ms (joy, b) < DEBOUNCE_MS) →
       b < s.states.length → 0 < s.states.length →
       (on_down acConfig true now s joy b).2
         = [OutEvent.keyDown k, OutEvent.keyUp k] ∧
       ((on_down acConfig true now s joy b).1.states.getD b
         initButtonState).suppressed_until_up = true ∧
       ((on_down acConfig true now s joy b).1.states.getD 0
         initButtonState).suppressed_until_up = true ∧
       ((on_down acConfig true now s joy b).1.states.getD b
         initButtonState).repeat_mode = none ∧
       ((on_down acConfig true now s joy b).1.states.getD b
         initButtonState).hold_keys
         = (s.states.getD b initButtonState).hold_keys) ∧
    (∀ (C : Config) (s : EngState) (b now : Nat),
       (s.states.getD b initButtonState).suppressed_until_up = true →
       (s.states.getD b initButtonState).hold_keys = none →
       (s.states.getD b initButtonState).repeat_mode ≠ some RMode.flash18 →
       (on_up C true now s b).2 = []) ∧
    (∀ (s : MapperEngState) (b now : Nat) (k : String),
       acArrows b = some k →
       (0 : Nat) ∈ s.pressed →
       b < s.states.length → 0 < s.states.length →
       (mapper_on_down true now s b).2
         = [OutEvent.keyDown k, OutEvent.keyUp k] ∧
       ((mapper_on_down true now s b).1.states.getD b
         mInitButtonState).suppressed_until_up = true ∧
       ((mapper_on_down true now s b).1.states.getD 0
         mInitButtonState).suppressed_until_up
         = (s.states.getD 0 mInitButtonState).suppressed_until_up) ∧
    (∀ (s : MapperEngState) (b now : Nat),
       acActions b = {} →
       (s.states.getD b mInitButtonState).hold_keys = none →
       (mapper_on_up true now s b).2 = []) := by
  refine ⟨?_, ?_, ?_, ?_, ?_⟩
  · intro s joy b now k hk h3 hdeb hblen h3len
    have hk' : acMod2Map b = some k := by simpa [acConfig] using hk
    have hb3 : b ≠ 3 := by
      rcases acMod2Map_cases b k hk' with h | h | h | h <;> omega
    have hstep : on_down acConfig true now s joy b
        = combo_fire true
            { s with last_down_ms := ((joy, b), now) :: s.last_down_ms,
                     states := (s.states.set b
                       (reset_on_down now (s.states.getD b initButtonState))),
                     pressed := pset_add s.pressed b } b 3 k := by
      unfold on_down
      rw [if_neg hdeb]
      simp only [acConfig, hk', if_true]
      rw [if_pos (mem_pset_add _ _ _ h3)]
    rw [hstep]
    unfold combo_fire set_suppressed
    simp only [List.length_set]
    rw [if_pos h3len]
    simp only [List.getD_eq_getElem?_getD, List.getElem?_set,
      List.length_set]
    simp [tap_scancode, hb3, Ne.symm hb3, hblen, h3len, reset_on_down,
      ButtonState.stop_repeat, List.getElem?_eq_getElem hblen]
  · intro s joy b now k hk h0 h3 hdeb hblen h0len
    have hk' : acArrows b = some k := by simpa [acConfig] using hk
    have hbrange : b = 7 ∨ b = 6 ∨ b = 5 ∨ b = 4 := acArrows_cases b k hk'
    have hb3 : b ≠ 3 := by rcases hbrange with h | h | h | h <;> omega
    have hb0 : b ≠ 0 := by rcases hbrange with h | h | h | h <;> omega
    have hm2 : (acMod2Map b).isSome = true := by
      rcases hbrange with h | h | h | h <;> simp [acMod2Map, h]
    have hstep : on_down acConfig true now s joy b
        = combo_fire true
            { s with last_down_ms := ((joy, b), now) :: s.last_down_ms,
                     states := (s.states.set b
                       (reset_on_down now (s.states.getD b initButtonState))),
                     pressed := pset_add s.pressed b } b 0 k := by
      unfold on_down
      rw [if_neg hdeb]
      cases hmk : acMod2Map b with
      | none => rw [hmk] at hm2; simp at hm2
      | some k2 =>
          simp only [acConfig, hmk, if_true]
          rw [if_neg (not_mem_pset_add _ _ _ h3 (Ne.symm hb3))]
          unfold down_arrow_or_plain
          simp only [acConfig, hk', if_true,
            show L_idx 1 = 0 from rfl]
          rw [if_pos (mem_pset_add _ _ _ h0)]
    rw [hstep]
    unfold combo_fire set_suppressed
    simp only [List.length_set]
    rw [if_pos h0len]
    simp only [List.getD_eq_getElem?_getD, List.getElem?_set,
      List.length_set]
    simp [tap_scancode, hb0, Ne.symm hb0, hblen, h0len, reset_on_down,
      ButtonState.stop_repeat, List.getElem?_eq_getElem hblen]
  · intro C s b now h1 h2 h3
    simp only [List.getD_eq_getElem?_getD] at h1 h2 h3
    simp [on_up, h1, h2, h3, ButtonState.stop_hold, ButtonState.stop_repeat,
      BTN_PLAY_PAUSE]
  · intro s b now k hk h0 hblen h0len
    have hbrange : b = 7 ∨ b = 6 ∨ b = 5 ∨ b = 4 := acArrows_cases b k hk
    have hb0 : b ≠ 0 := by rcases hbrange with h | h | h | h <;> omega
    unfold mapper_on_down
    simp only [hk, show L_idx 1 = 0 from rfl]
    rw [if_pos (mem_pset_add _ _ _ h0)]
    simp only [List.getD_eq_getElem?_getD, List.getElem?_set,
      List.length_set]
    simp [tap_scancode, hb0, Ne.symm hb0, hblen, h0len, L_idx,
      ONE_BASED_LABELS, List.getElem?_eq_getElem hblen]
  · intro s b now hcfg h2
    simp only [List.getD_eq_getElem?_getD] at h2
    simp [mapper_on_up, hcfg, h2, MapperButtonState.stop_hold,
      MapperButtonState.stop_repeat, hold_stop]

/-- Counterexample to C1 as stated: in the stand-alone mapper, pressing
the modifier (button 0) at 1000 and then secondary button 7 at 1100 fires
the combo (LEFT is tapped, button 7 is suppressed) yet the modifier's
`suppressed_until_up` stays `false`. -/
theorem C1_combo_suppression_counterexample :
    (mapper_on_down true 1100 (mapper_on_down true 1000 (mEngInit 22) 0).1
        7).2 = [OutEvent.keyDown "LEFT", OutEvent.keyUp "LEFT"] ∧
    ((mapper_on_down true 1100 (mapper_on_down true 1000 (mEngInit 22) 0).1
        7).1.states.getD 7 mInitButtonState).suppressed_until_up = true ∧
    ((mapper_on_down true 1100 (mapper_on_down true 1000 (mEngInit 22) 0).1
        7).1.states.getD 0 mInitButtonState).suppressed_until_up = false := by
  refine ⟨by decide, by decide, by decide⟩

/-- Witness for C1: concrete instances of all five conjuncts. -/
theorem C1_combo_suppression_witness :
    ((on_down acConfig true 1000
        { last_down_ms := [], states := List.replicate 22 initButtonState,
          pressed := [3] } 0 7).2
      = [OutEvent.keyDown "7", OutEvent.keyUp "7"]) ∧
    ((on_down acConfig true 1000
        { last_down_ms := [], states := List.replicate 22 initButtonState,
          pressed := [0] } 0 7).2
      = [OutEvent.keyDown "LEFT", OutEvent.keyUp "LEFT"]) ∧
    ((on_up acConfig true 2000
        { last_down_ms := [((0, 7), 1000)],
          states := ((List.replicate 22 initButtonState).set 7
            { is_down := true, down_ms := 1000,
              suppressed_until_up := true }),
          pressed := [7] } 7).2 = []) ∧
    ((mapper_on_down true 1000
        { states := List.replicate 22 mInitButtonState,
          pressed := [0] } 7).2
      = [OutEvent.keyDown "LEFT", OutEvent.keyUp "LEFT"]) ∧
    ((mapper_on_up true 2000
        { states := List.replicate 22 mInitButtonState,
          pressed := [0] } 0).2 = []) :=
  ⟨(C1_combo_suppression.1
      { last_down_ms := [], states := List.replicate 22 initButtonState,
        pressed := [3] } 0 7 1000 "7" (by decide) (by decide) (by decide)
      (by decide) (by decide)).1,
   (C1_combo_suppression.2.1
      { last_down_ms := [], states := List.replicate 22 initButtonState,
        pressed := [0] } 0 7 1000 "LEFT" (by decide) (by decide) (by decide)
      (by decide) (by decide) (by decide)).1,
   C1_combo_suppression.2.2.1 acConfig
      { last_down_ms := [((0, 7), 1000)],
        states := ((List.replicate 22 initButtonState).set 7
          { is_down := true, down_ms := 1000,
            suppressed_until_up := true }),
        pressed := [7] } 7 2000 (by decide) (by decide) (by decide),
   (C1_combo_suppression.2.2.2.1
      { states := List.replicate 22 mInitButtonState, pressed := [0] }
      7 1000 "LEFT" (by decide) (by decide) (by decide) (by decide)).1,
   C1_combo_suppression.2.2.2.2
      { states := List.replicate 22 mInitButtonState, pressed := [0] }
      0 2000 (by decide) (by decide)⟩

/-- Counterexample to C8 as stated: the process handle cannot be opened,
yet `allowed_to_send` returns `true` because the foreground title check
runs first and the title matches. -/
theorem C8_fail_closed_counterexample :
    allowed_to_send
      { has_fg_window := true, window_title := "Assetto Corsa",
        can_open_process := false, can_query_image := false,
        image_path := "" } = true := by decide

/-- C8, corrected.  When there is no foreground window both the title and
the process name come back empty and `allowed_to_send` is `false`
(fail-closed, and total — the source returns `""` at each failure point
rather than raising).  When only the process introspection fails (handle
cannot be opened, or the image-name query fails) the process check
contributes nothing and `allowed_to_send` equals the title check alone —
so it is `false` whenever the title also fails to match, but not
unconditionally. -/
theorem C8_fail_closed_amended :
    (∀ env : FgEnv, env.has_fg_window = false →
       allowed_to_send env = false) ∧
    (∀ env : FgEnv, env.can_open_process = false →
       allowed_to_send env
         = ALLOWED_TITLE_SUBSTR.any
             (fun t => contains_sub t (lower_str (get_fg_title env)))) ∧
    (∀ env : FgEnv, env.can_query_image = false →
       allowed_to_send env
         = ALLOWED_TITLE_SUBSTR.any
             (fun t => contains_sub t (lower_str (get_fg_title env)))) := by
  refine ⟨?_, ?_, ?_⟩
  · intro env h
    simp [allowed_to_send, get_fg_title, get_fg_proc_name, h, lower_str,
      ALLOWED_TITLE_SUBSTR, ALLOWED_PROC_SUBSTR, contains_sub]
  · intro env h
    simp [allowed_to_send, get_fg_proc_name, h, ALLOWED_PROC_SUBSTR,
      contains_sub]
  · intro env h
    simp [allowed_to_send, get_fg_proc_name, h, ALLOWED_PROC_SUBSTR,
      contains_sub]

/-- Witness for C8's amended statement at three concrete environments. -/
theorem C8_fail_closed_amended_witness :
    allowed_to_send
      { has_fg_window := false, window_title := "Assetto Corsa",
        can_open_process := true, can_query_image := true,
        image_path := "C:\\Games\\acs.exe" } = false ∧
    allowed_to_send
      { has_fg_window := true, window_title := "solitaire",
        can_open_process := false, can_query_image := true,
        image_path := "C:\\Games\\acs.exe" }
      = ALLOWED_TITLE_SUBSTR.any
          (fun t => contains_sub t (lower_str (get_fg_title
            { has_fg_window := true, window_title := "solitaire",
              can_open_process := false, can_query_image := true,
              image_path := "C:\\Games\\acs.exe" }))) ∧
    allowed_to_send
      { has_fg_window := true, window_title := "solitaire",
        can_open_process := true, can_query_image := false,
        image_path := "C:\\Games\\acs.exe" }
      = ALLOWED_TITLE_SUBSTR.any
          (fun t => contains_sub t (lower_str (get_fg_title
            { has_fg_window := true, window_title := "solitaire",
              can_open_process := true, can_query_image := false,
              image_path := "C:\\Games\\acs.exe" }))) :=
  ⟨C8_fail_closed_amended.1 _ rfl,
   C8_fail_closed_amended.2.1 _ rfl,
   C8_fail_closed_amended.2.2 _ rfl⟩

/-! ### The flash-phase invariant (C10) -/

/-- The flash bookkeeping invariant: the recorded phase is OFF and the
toggle counter is even. -/
def flash_ok (st : ButtonState) : Prop :=
  st.flash_in_on_phase = false ∧ 2 ∣ st.flash_toggle_count

def states_ok (l : List ButtonState) : Prop := ∀ st ∈ l, flash_ok st

theorem flash_ok_init : flash_ok initButtonState := ⟨rfl, ⟨0, rfl⟩⟩

theorem states_ok_set (l : List ButtonState) (b : Nat) (st : ButtonState)
    (hl : states_ok l) (hst : flash_ok st) : states_ok (l.set b st) := by
  intro x hx
  rcases List.mem_or_eq_of_mem_set hx with h | h
  · exact hl x h
  · exact h ▸ hst

theorem states_ok_getD (l : List ButtonState) (hl : states_ok l) (i : Nat) :
    flash_ok (l.getD i initButtonState) := by
  rcases Nat.lt_or_ge i l.length with h | h
  · rw [List.getD_eq_getElem l initButtonState h]
    exact hl _ (l.getElem_mem h)
  · rw [List.getD_eq_default]
    exact flash_ok_init
    omega

theorem flash_ok_reset (now : Nat) (st : ButtonState) (h : flash_ok st) :
    flash_ok (reset_on_down now st) :=
  ⟨rfl, by simpa [reset_on_down, ButtonState.stop_repeat] using h.2⟩

theorem states_ok_set_suppressed (s : EngState) (b : Nat)
    (h : states_ok s.states) : states_ok (set_suppressed s b).states := by
  unfold set_suppressed
  apply states_ok_set _ _ _ h
  have h0 := states_ok_getD s.states h b
  exact ⟨h0.1, h0.2⟩

theorem combo_fire_states_ok (a : Bool) (s : EngState) (b m : Nat)
    (k : String) (h : states_ok s.states) :
    states_ok (combo_fire a s b m k).1.states := by
  unfold combo_fire
  dsimp only
  split_ifs with hm
  · exact states_ok_set_suppressed _ _ (states_ok_set_suppressed _ _ h)
  · exact states_ok_set_suppressed _ _ h

theorem down_plain_states_ok (C : Config) (a : Bool) (now : Nat)
    (s : EngState) (b : Nat) (h : states_ok s.states) :
    states_ok (down_plain C a now s b).1.states := by
  unfold down_plain
  split_ifs with hl
  · exact states_ok_set _ _ _ h ⟨rfl, ⟨0, rfl⟩⟩
  all_goals
    dsimp only
    apply states_ok_set _ _ _ h
    have h0 := states_ok_getD s.states h b
    cases hh : (C.actions b).hold_scancode <;>
      cases hha : (C.actions b).hold_after_long_scancode <;>
        rcases hhr : (C.actions b).hold_repeat_pulse_scancode
          with _ | (_ | ⟨k, tl⟩) <;>
      simp_all [ButtonState.start_hold, ButtonState.start_pulse, flash_ok]

theorem daop_states_ok (C : Config) (a : Bool) (now : Nat) (s : EngState)
    (b : Nat) (h : states_ok s.states) :
    states_ok (down_arrow_or_plain C a now s b).1.states := by
  unfold down_arrow_or_plain
  cases hm : C.arrows b with
  | some k =>
      dsimp only
      split_ifs with hp
      · exact combo_fire_states_ok _ _ _ _ _ h
      · exact down_plain_states_ok _ _ _ _ _ h
  | none => exact down_plain_states_ok _ _ _ _ _ h

theorem on_down_states_ok (C : Config) (a : Bool) (now : Nat)
    (s : EngState) (joy b : Nat) (h : states_ok s.states) :
    states_ok (on_down C a now s joy b).1.states := by
  unfold on_down
  by_cases hdeb : now - lookup_last_down s.last_down_ms (joy, b)
      < DEBOUNCE_MS
  · rw [if_pos hdeb]
    exact h
  · rw [if_neg hdeb]
    have h1 : states_ok ((s.states.set b
        (reset_on_down now (s.states.getD b initButtonState)))) :=
      states_ok_set _ _ _ h (flash_ok_reset _ _ (states_ok_getD _ h b))
    cases a with
    | false =>
        rw [if_neg (by simp)]
        exact h1
    | true =>
        rw [if_pos rfl]
        cases hm : C.mod2_map b with
        | some k2 =>
            dsimp only
            split_ifs with hp
            · exact combo_fire_states_ok _ _ _ _ _ h1
            · exact daop_states_ok _ _ _ _ _ h1
        | none => exact daop_states_ok _ _ _ _ _ h1

theorem on_up_states_ok (C : Config) (a : Bool) (now : Nat) (s : EngState)
    (b : Nat) (h : states_ok s.states) :
    states_ok (on_up C a now s b).1.states := by
  unfold on_up
  have h0 := states_ok_getD s.states h b
  cases a with
  | false =>
      rw [if_neg (by simp)]
      exact states_ok_set _ _ _ h ⟨h0.1, h0.2⟩
  | true =>
      rw [if_pos rfl]
      refine states_ok_set _ _ _ h ?_
      have hfix : ∀ q1 : ButtonState, flash_ok q1 →
          flash_ok (q1.stop_hold true).1 := fun q1 hq1 => ⟨hq1.1, hq1.2⟩
      apply hfix
      split_ifs with hq hph
      · have hI : (s.states.getD b initButtonState).flash_in_on_phase
            = false := h0.1
        simp only [List.getD_eq_getElem?_getD] at hI
        exact absurd hph (by simp [hI])
      · exact ⟨rfl, h0.2⟩
      · exact ⟨h0.1, h0.2⟩

theorem tick_one_flash_ok (a : Bool) (now : Nat) (st : ButtonState)
    (h : flash_ok st) : flash_ok (tick_one a now st).1 := by
  obtain ⟨h1, h2⟩ := h
  unfold tick_one
  cases hp : st.hold_after_long_pending <;>
    dsimp only <;>
    split_ifs <;>
    first
      | exact ⟨h1, h2⟩
      | exact ⟨rfl, by
          show 2 ∣ st.flash_toggle_count + 2
          omega⟩

theorem tick_all_states_ok (a : Bool) (now : Nat) (s : EngState)
    (h : states_ok s.states) : states_ok (tick_all a now s).1.states := by
  unfold tick_all
  intro x hx
  simp only [List.mem_map] at hx
  obtain ⟨y, hy, rfl⟩ := hx
  exact tick_one_flash_ok _ _ _ (h y hy)

theorem handle_event_states_ok (C : Config) (a : Bool) (now : Nat)
    (s : EngState) (e : JEvent) (h : states_ok s.states) :
    states_ok (handle_event C a now s e).1.states := by
  cases e with
  | down joy b => exact on_down_states_ok _ _ _ _ _ _ h
  | up b => exact on_up_states_ok _ _ _ _ _ h

theorem run_events_states_ok (C : Config) (a : Bool) (now : Nat)
    (evs : List JEvent) (s : EngState) (h : states_ok s.states) :
    states_ok (run_events C a now s evs).1.states := by
  induction evs generalizing s with
  | nil => exact h
  | cons e rest ih =>
      rw [run_events_cons]
      exact ih _ (handle_event_states_ok _ _ _ _ _ h)

theorem step_iter_states_ok (C : Config) (a : Bool) (now : Nat)
    (s : EngState) (evs : List JEvent) (h : states_ok s.states) :
    states_ok (step_iter C a now s evs).1.states := by
  unfold step_iter
  dsimp only
  split_ifs
  · exact tick_all_states_ok _ _ _ (run_events_states_ok _ _ _ _ _ h)
  · exact run_events_states_ok _ _ _ _ _ h

theorem run_iters_states_ok (C : Config)
    (iters : List (Nat × Bool × List JEvent)) (s : EngState)
    (h : states_ok s.states) : states_ok (run_iters C iters s).1.states := by
  induction iters generalizing s with
  | nil => exact h
  | cons it rest ih =>
      obtain ⟨now, a, evs⟩ := it
      rw [run_iters_cons]
      exact ih _ (step_iter_states_ok _ _ _ _ _ h)

/-- C10: over every run of the loop from the fresh engine state, every
button's `flash_in_on_phase` is `false` between iterations — the flash
unit raises and lowers the phase flag within a single tick on the single
thread — so in particular the phase is OFF at every point where a
JOYBUTTONUP event is handled (and the corrective tap's guard can never
fire from a reachable state); moreover `flash_toggle_count` is always
even when observed between iterations. -/
theorem C10_flash_phase_invariant :
    ∀ (C : Config) (n : Nat) (iters : List (Nat × Bool × List JEvent))
      (i : Nat),
      ((run_iters C iters (engInit n)).1.states.getD i
        initButtonState).flash_in_on_phase = false ∧
      2 ∣ ((run_iters C iters (engInit n)).1.states.getD i
        initButtonState).flash_toggle_count := by
  intro C n iters i
  have hinit : states_ok (engInit n).states := by
    intro x hx
    rw [List.eq_of_mem_replicate hx]
    exact flash_ok_init
  have h := run_iters_states_ok C iters (engInit n) hinit
  exact states_ok_getD _ h i
